import Mathlib

/-!
Verification of the multimethod dispatch library (danwerner/multimethodic).

The repository ships two parallel implementations of the same design:

* `multimethodic.py` — the packaged module: class `MultiMethod` with no
  global registry, a `DispatchError` exception carrying the multimethod's
  name, `addmethod`/`removemethod` as plain dict operations, and a
  `method(dispatchval)` decorator that returns the MultiMethod itself.

* `multimethods.py` — the registry-bearing variant: class-level
  `MultiMethod.instances` mapping names to live instances, construction
  raising a plain `Exception` on a duplicate name, dispatch failure raised
  as `ValueError`, `addmethod` additionally setting a back-reference
  attribute `func.multimethod = self` on the implementation callable, and
  `removemethod` deleting that attribute before deleting the table entry.
  A free decorator `method(dispatchval)` resolves the target multimethod
  from the decorated function's `__name__` (text before the last `__`) via
  the registry.

Both are embedded below.  Call arguments are modelled by a single type `α`
(standing for the whole `*args, **kwds` tuple), results by `β`, and
user-level dispatch values by `κ`; the reserved `Default` sentinel is a
distinguished extra element of the key space (`DKey.defaultK`), distinct
from every user-produced key, exactly as the fresh `DefaultMethod()`
instance is in Python.  Python exceptions are an explicit error type and
fallible operations return `Except`.
-/

/-- Python exceptions raised by the two modules.  `dispatchError` models
`multimethodic.DispatchError` (message and the `name` attribute it stores);
the remaining constructors model the built-in Python exception classes the
sources raise (`TypeError`, `KeyError`, `AttributeError`, `ValueError`,
bare `Exception`), each carrying its message.  The spec's abstract error
taxonomy maps onto these: `InvalidDispatchFunctionError` is `TypeError`,
`DuplicateNameError` is the bare `Exception`, `NotFoundError` is
`KeyError`, and `DispatchError` is `DispatchError`/`ValueError`. -/
inductive PyError where
  | typeError : String → PyError
  | keyError : String → PyError
  | attributeError : String → PyError
  | valueError : String → PyError
  | dispatchError : String → String → PyError
  | exceptionE : String → PyError
deriving DecidableEq

/-- Dispatch-key space: every user value of type `κ`, plus the reserved
`Default` sentinel (the unique `DefaultMethod()` instance, equal to no
user-produced key).  A dispatch function may return the sentinel itself,
as the repository's `test_addmethod` does by calling `foomethod(Default)`. -/
inductive DKey (κ : Type) where
  | user : κ → DKey κ
  | defaultK : DKey κ
deriving DecidableEq

/-- Finite-map update, the shallow embedding of Python dict assignment
`d[k] = x` (with `x = none` for `del d[k]` after a presence check). -/
def mapSet {κ ν : Type} [DecidableEq κ] (f : κ → Option ν) (k : κ) (x : Option ν) :
    κ → Option ν :=
  fun j => if j = k then x else f j

namespace Multimethodic

/-- State of a `multimethodic.MultiMethod` instance: the `name`, the
dispatch function (which may itself raise), and the `methods` dict mapping
dispatch values to implementation callables (which may themselves raise). -/
structure MultiMethod (α β κ : Type) where
  name : String
  dispatchfn : α → Except PyError (DKey κ)
  methods : DKey κ → Option (α → Except PyError β)

/-- Constructor `MultiMethod.__init__(self, name, dispatchfn)` from
`multimethodic.py`.  The only failure path there is the
`callable(dispatchfn)` check, which cannot fire in this typed embedding
because `dispatchfn` is already a function; there is no registry and no
name-uniqueness check of any kind, so construction always succeeds with an
empty methods table. -/
def mmInit {α β κ : Type} (name : String) (dispatchfn : α → Except PyError (DKey κ)) :
    Except PyError (MultiMethod α β κ) :=
  Except.ok (MultiMethod.mk name dispatchfn (fun _ => none))

/-- `MultiMethod.__call__` from `multimethodic.py`: evaluate the dispatch
function (propagating its failure), then exact match, then the `Default`
entry, else raise `DispatchError` carrying the multimethod's name. -/
def MultiMethod.call {α β κ : Type} (m : MultiMethod α β κ) (args : α) :
    Except PyError β :=
  match m.dispatchfn args with
  | Except.error e => Except.error e
  | Except.ok dv =>
    match m.methods dv with
    | some f => f args
    | none =>
      match m.methods DKey.defaultK with
      | some f => f args
      | none =>
        Except.error (PyError.dispatchError
          ("No matching method on multimethod '" ++ m.name ++
           "' and no default method defined") m.name)

/-- `MultiMethod.addmethod(self, func, dispatchval)` from
`multimethodic.py`: unconditional dict assignment
`self.methods[dispatchval] = func`. -/
def MultiMethod.addmethod {α β κ : Type} [DecidableEq κ] (m : MultiMethod α β κ)
    (func : α → Except PyError β) (dispatchval : DKey κ) : MultiMethod α β κ :=
  MultiMethod.mk m.name m.dispatchfn (mapSet m.methods dispatchval (some func))

/-- `MultiMethod.removemethod(self, dispatchval)` from `multimethodic.py`:
`del self.methods[dispatchval]`, which raises `KeyError` when the key is
absent and otherwise removes exactly that entry. -/
def MultiMethod.removemethod {α β κ : Type} [DecidableEq κ] (m : MultiMethod α β κ)
    (dispatchval : DKey κ) : Except PyError (MultiMethod α β κ) :=
  match m.methods dispatchval with
  | none => Except.error (PyError.keyError "dispatchval")
  | some _ => Except.ok (MultiMethod.mk m.name m.dispatchfn (mapSet m.methods dispatchval none))

/-- `MultiMethod.method(self, dispatchval)` from `multimethodic.py`: the
decorator registers `func` via `addmethod` and returns the MultiMethod
itself.  The result pair is (new state of `self`, returned value); the
returned value is `self` after the mutation, hence the two components
coincide. -/
def MultiMethod.method {α β κ : Type} [DecidableEq κ] (m : MultiMethod α β κ)
    (dispatchval : DKey κ) (func : α → Except PyError β) :
    MultiMethod α β κ × MultiMethod α β κ :=
  let m2 := m.addmethod func dispatchval
  Prod.mk m2 m2

end Multimethodic

namespace Multimethods

/-- Attribute state of function objects: for each function object
(identified by a numeric id, since the back-reference lives on the object
itself and the same object may be registered under several dispatch
values), whether it currently has a `multimethod` attribute and, if so,
the `__name__` of the owning MultiMethod it points to (the registry keys
instances by name, so the name identifies the instance). -/
def Attrs : Type := Nat → Option String

/-- State of a `multimethods.MultiMethod` instance: its `__name__`, the
dispatch function, and the `methods` dict mapping dispatch values to
function-object ids.  The behaviour of function objects is supplied
separately to `call` as an interpretation `funcs : Nat → α → Except PyError β`. -/
structure MultiMethod (α β κ : Type) where
  pyName : String
  dispatchfn : α → Except PyError (DKey κ)
  methods : DKey κ → Option Nat

/-- `MultiMethod.__call__` from `multimethods.py`: dispatch-function value,
then exact match, then `Default`, else `ValueError` whose message names the
multimethod (this variant has no dedicated DispatchError class). -/
def MultiMethod.call {α β κ : Type} (funcs : Nat → α → Except PyError β)
    (m : MultiMethod α β κ) (args : α) : Except PyError β :=
  match m.dispatchfn args with
  | Except.error e => Except.error e
  | Except.ok dv =>
    match m.methods dv with
    | some f => funcs f args
    | none =>
      match m.methods DKey.defaultK with
      | some f => funcs f args
      | none =>
        Except.error (PyError.valueError
          ("No matching method on " ++ m.pyName ++ " and no default method defined"))

/-- `MultiMethod.addmethod(self, func, dispatchval)` from
`multimethods.py`: the dict assignment `self.methods[dispatchval] = func`
followed by the back-reference assignment `func.multimethod = self`.  The
result is (new state of `self`, new attribute state). -/
def MultiMethod.addmethod {α β κ : Type} [DecidableEq κ] (m : MultiMethod α β κ)
    (attrs : Attrs) (func : Nat) (dispatchval : DKey κ) : MultiMethod α β κ × Attrs :=
  Prod.mk (MultiMethod.mk m.pyName m.dispatchfn (mapSet m.methods dispatchval (some func)))
          (mapSet attrs func (some m.pyName))

/-- `MultiMethod.getmethod(self, dispatchval)` from `multimethods.py`:
`self.methods[dispatchval]`, raising `KeyError` when absent. -/
def MultiMethod.getmethod {α β κ : Type} (m : MultiMethod α β κ)
    (dispatchval : DKey κ) : Except PyError Nat :=
  match m.methods dispatchval with
  | none => Except.error (PyError.keyError "dispatchval")
  | some f => Except.ok f

/-- `MultiMethod.removemethod(self, dispatchval)` from `multimethods.py`:
first `del self.methods[dispatchval].multimethod` — the dict lookup raises
`KeyError` when the key is absent, and the attribute deletion raises
`AttributeError` when the stored function object has no `multimethod`
attribute — and only then `del self.methods[dispatchval]`.  On either
failure the exception propagates before any mutation, so the state is
unchanged (the `Except.error` result carries no new state). -/
def MultiMethod.removemethod {α β κ : Type} [DecidableEq κ] (m : MultiMethod α β κ)
    (attrs : Attrs) (dispatchval : DKey κ) : Except PyError (MultiMethod α β κ × Attrs) :=
  match m.methods dispatchval with
  | none => Except.error (PyError.keyError "dispatchval")
  | some f =>
    match attrs f with
    | none => Except.error (PyError.attributeError "multimethod")
    | some _ =>
      Except.ok (Prod.mk (MultiMethod.mk m.pyName m.dispatchfn (mapSet m.methods dispatchval none))
                         (mapSet attrs f none))

/-- Global state of the `multimethods` module: the class-level registry
`MultiMethod.instances` (name → instance) together with the attribute
state of all function objects. -/
structure Env (α β κ : Type) where
  instances : String → Option (MultiMethod α β κ)
  attrs : Attrs

/-- `MultiMethod.__init__(self, name, dispatchfn)` from `multimethods.py`:
after the (untypeable here) `callable` check it raises a plain `Exception`
when `name` is already a key of `MultiMethod.instances`, and otherwise
creates the instance with an empty methods table and registers it under
`name`.  On the duplicate-name failure nothing has been mutated. -/
def Env.mmInit {α β κ : Type} (env : Env α β κ) (n : String)
    (fn : α → Except PyError (DKey κ)) : Except PyError (Env α β κ × MultiMethod α β κ) :=
  match env.instances n with
  | some _ =>
    Except.error (PyError.exceptionE
      ("Multimethod named " ++ n ++ " already exists, redeclaring it would wreak havoc"))
  | none =>
    let m := MultiMethod.mk n fn (fun _ => none)
    Except.ok (Prod.mk (Env.mk (mapSet env.instances n (some m)) env.attrs) m)

/-- A Python function object as seen by the decorator `method`: its
`__name__` and its identity (the id under which its attributes live). -/
structure FuncObj where
  pyName : String
  fid : Nat

/-- The two-character separator `'__'` used by `method` to split a function
name into multimethod name and suffix. -/
def sepUU : List Char := ['_', '_']

/-- Index of the last occurrence of `sep` as a contiguous sublist of `s`,
if any.  `(lastOccur sep s).isSome` embeds Python's `sep in s`, and taking
`i` characters at `some i` embeds `s.rsplit(sep, 1)[0]`. -/
def lastOccur (sep s : List Char) : Option Nat :=
  ((List.range (s.length + 1)).filter (fun i => (s.drop i).take sep.length == sep)).getLast?

/-- The free decorator `method(dispatchval)` from `multimethods.py` applied
to a function object `func`: raise `ValueError` when `'__'` does not occur
in `func.__name__`; otherwise derive the multimethod name as everything
before the last `'__'`, look it up in `MultiMethod.instances` and raise
`KeyError` when absent (the source's message literally contains an
unformatted `'%s'`); on success register `func` on the found multimethod
via `addmethod` and return `func`. -/
def method {α β κ : Type} [DecidableEq κ] (dispatchval : DKey κ) (func : FuncObj)
    (env : Env α β κ) : Except PyError (Env α β κ × FuncObj) :=
  match lastOccur sepUU func.pyName.data with
  | none =>
    Except.error (PyError.valueError
      "Method name must contain '__' to separate multimethod name from suffix")
  | some i =>
    let mmName := String.mk (func.pyName.data.take i)
    match env.instances mmName with
    | none =>
      Except.error (PyError.keyError
        "Multimethod '%s' not found; it must exist before methods can be added")
    | some m =>
      let r := m.addmethod env.attrs func.fid dispatchval
      Except.ok (Prod.mk (Env.mk (mapSet env.instances mmName (some r.1)) r.2) func)

end Multimethods

section Examples

/-- Identity dispatch function over natural-number arguments, as in the
repository's `identity = lambda x: x` used by `test_addmethod`. -/
def exDispatchId : Nat → Except PyError (DKey Nat) := fun n => Except.ok (DKey.user n)

/-- Implementation returning "The Answer" (registered under 42 in
`test_addmethod`). -/
def exAnswerFn : Nat → Except PyError String := fun _ => Except.ok "The Answer"

/-- Implementation returning "Nothing" (registered under `Default` in
`test_addmethod`). -/
def exNothingFn : Nat → Except PyError String := fun _ => Except.ok "Nothing"

/-- The `foomethod` multimethod right after construction. -/
def exFooBase : Multimethodic.MultiMethod Nat String Nat :=
  Multimethodic.MultiMethod.mk "foomethod" exDispatchId (fun _ => none)

/-- The `foomethod` multimethod of `test_addmethod` with the 42 entry and a
default entry registered. -/
def exFoo : Multimethodic.MultiMethod Nat String Nat :=
  (exFooBase.addmethod exAnswerFn (DKey.user 42)).addmethod exNothingFn DKey.defaultK

/-- Interpretation of function-object ids for the registry-bearing
variant's examples: id 7 returns "The Answer", id 8 returns "Nothing". -/
def exFuncs : Nat → Nat → Except PyError String :=
  fun fid _ =>
    match fid with
    | 7 => Except.ok "The Answer"
    | 8 => Except.ok "Nothing"
    | _ => Except.ok "other"

/-- Empty attribute state: no function object has a `multimethod`
attribute yet. -/
def exAttrs0 : Multimethods.Attrs := fun _ => none

/-- First registration step for the registry-variant "foomethod": function
object 7 registered under 42, starting from an empty table and empty
attribute state. -/
def exFoo2a : Multimethods.MultiMethod Nat String Nat × Multimethods.Attrs :=
  (Multimethods.MultiMethod.mk "foomethod" exDispatchId (fun _ => none)).addmethod
    exAttrs0 7 (DKey.user 42)

/-- Second registration step: function object 8 registered under `Default`. -/
def exFoo2b : Multimethods.MultiMethod Nat String Nat × Multimethods.Attrs :=
  exFoo2a.1.addmethod exFoo2a.2 8 DKey.defaultK

/-- A `multimethods.MultiMethod` named "foomethod" with function object 7
registered under 42 and function object 8 under `Default`. -/
def exFoo2 : Multimethods.MultiMethod Nat String Nat := exFoo2b.1

/-- A `multimethods.MultiMethod` named "barmethod" with an empty table. -/
def exBar2 : Multimethods.MultiMethod Nat String Nat :=
  Multimethods.MultiMethod.mk "barmethod" exDispatchId (fun _ => none)


/-- The registry-variant `sign` multimethod right after construction. -/
def exSign : Multimethods.MultiMethod Nat String Nat :=
  Multimethods.MultiMethod.mk "sign" exDispatchId (fun _ => none)

/-- A registry environment holding only the `sign` multimethod, with no
function attributes set. -/
def exEnvSign : Multimethods.Env Nat String Nat :=
  Multimethods.Env.mk (mapSet (fun _ => none) "sign" (some exSign)) exAttrs0

/-- Function object `sign__pos` (id 7), whose name resolves to the `sign`
multimethod. -/
def exSignPos : Multimethods.FuncObj := Multimethods.FuncObj.mk "sign__pos" 7

/-- Function object `sign__zero` (id 8), whose name resolves to the `sign`
multimethod. -/
def exSignZero : Multimethods.FuncObj := Multimethods.FuncObj.mk "sign__zero" 8

/-- Function object `nosuch__impl` (id 9), whose name resolves to a
multimethod name absent from the registry. -/
def exOrphan : Multimethods.FuncObj := Multimethods.FuncObj.mk "nosuch__impl" 9

/-- Implementation returning "123" (registered under 1 in
`test_removemethod`, which uses the integer 123). -/
def exBarFn : Nat → Except PyError String := fun _ => Except.ok "123"

/-- The `barmethod` multimethod of `test_removemethod` with the single
entry `1 → exBarFn`. -/
def exBarM : Multimethodic.MultiMethod Nat String Nat :=
  (Multimethodic.MultiMethod.mk "barmethod" exDispatchId (fun _ => none)).addmethod
    exBarFn (DKey.user 1)

/-- Registry-variant `barmethod` with function object 7 registered under
dispatch value 1 (and the attribute state that registration produced). -/
def exBarAdd : Multimethods.MultiMethod Nat String Nat × Multimethods.Attrs :=
  exBar2.addmethod exAttrs0 7 (DKey.user 1)

/-- Registry-variant `quxmethod` with an empty table. -/
def exQux : Multimethods.MultiMethod Nat String Nat :=
  Multimethods.MultiMethod.mk "quxmethod" exDispatchId (fun _ => none)

/-- `quxmethod` after registering function object 9 under dispatch value 3. -/
def exQux1 : Multimethods.MultiMethod Nat String Nat × Multimethods.Attrs :=
  exQux.addmethod exAttrs0 9 (DKey.user 3)

/-- `quxmethod` after additionally registering the same function object 9
under dispatch value 4 (one callable shared by two dispatch values). -/
def exQux2 : Multimethods.MultiMethod Nat String Nat × Multimethods.Attrs :=
  exQux1.1.addmethod exQux1.2 9 (DKey.user 4)

/-- State of `quxmethod` after successfully removing dispatch value 3:
the entry for 3 is gone, the entry for 4 survives. -/
def exQux3m : Multimethods.MultiMethod Nat String Nat :=
  Multimethods.MultiMethod.mk "quxmethod" exDispatchId
    (mapSet exQux2.1.methods (DKey.user 3) none)

/-- Attribute state after that removal: function object 9 has lost its
`multimethod` attribute. -/
def exQux3a : Multimethods.Attrs := mapSet exQux2.2 9 none

/-- Registry-variant `barmethod` with function object 7 registered under
dispatch value 1, starting the shared-callable scenario. -/
def exShared1 : Multimethods.MultiMethod Nat String Nat × Multimethods.Attrs :=
  exBar2.addmethod exAttrs0 7 (DKey.user 1)

/-- The same function object 7 additionally registered under dispatch
value 2. -/
def exShared2 : Multimethods.MultiMethod Nat String Nat × Multimethods.Attrs :=
  exShared1.1.addmethod exShared1.2 7 (DKey.user 2)

/-- State after successfully removing dispatch value 1: the entry for 2
survives, but function object 7 has lost its `multimethod` attribute. -/
def exShared3m : Multimethods.MultiMethod Nat String Nat :=
  Multimethods.MultiMethod.mk "barmethod" exDispatchId
    (mapSet exShared2.1.methods (DKey.user 1) none)

/-- Attribute state after that removal. -/
def exShared3a : Multimethods.Attrs := mapSet exShared2.2 7 none

/-- A freshly constructed `multimethodic` multimethod named "foobar", the
payload `mmInit` always succeeds with (there is no registry in this
variant, so a second construction under the same name evaluates the very
same expression and succeeds as well — `test_name_conflict` relies on it). -/
def exFoobarBase : Multimethodic.MultiMethod Nat String Nat :=
  Multimethodic.MultiMethod.mk "foobar" exDispatchId (fun _ => none)

/-- Implementation returning "foobar1" (first same-named multimethod of
`test_name_conflict`). -/
def exFoobar1Fn : Nat → Except PyError String := fun _ => Except.ok "foobar1"

/-- Implementation returning "foobar2" (second same-named multimethod of
`test_name_conflict`). -/
def exFoobar2Fn : Nat → Except PyError String := fun _ => Except.ok "foobar2"

end Examples

theorem mapSet_same {κ ν : Type} [DecidableEq κ] (f : κ → Option ν) (k : κ) (x : Option ν) :
    mapSet f k x k = x := by
  simp [mapSet]

theorem mapSet_other {κ ν : Type} [DecidableEq κ] (f : κ → Option ν) (k j : κ) (x : Option ν)
    (h : j ≠ k) : mapSet f k x j = f j := by
  simp [mapSet, h]

theorem mapSet_idem {κ ν : Type} [DecidableEq κ] (f : κ → Option ν) (k : κ) (x y : Option ν) :
    mapSet (mapSet f k x) k y = mapSet f k y := by
  funext j
  by_cases h : j = k <;> simp [mapSet, h]

/-- C1: whenever the dispatch function yields a value `v` that has an entry
`f` in the methods table, the call returns the result of `f` on the same
arguments — the exact-match path, taking precedence unconditionally over
any `Default` entry (no assumption on the `Default` entry appears).
Stated for both variants: `multimethodic.MultiMethod.__call__` and
`multimethods.MultiMethod.__call__`. -/
theorem c1_exact_match_precedence (α β κ : Type) :
    (∀ (m : Multimethodic.MultiMethod α β κ) (args : α) (v : DKey κ)
       (f : α → Except PyError β),
       m.dispatchfn args = Except.ok v → m.methods v = some f →
       m.call args = f args) ∧
    (∀ (funcs : Nat → α → Except PyError β) (m : Multimethods.MultiMethod α β κ)
       (args : α) (v : DKey κ) (f : Nat),
       m.dispatchfn args = Except.ok v → m.methods v = some f →
       Multimethods.MultiMethod.call funcs m args = funcs f args) := by
  constructor
  · intro m args v f h1 h2
    simp [Multimethodic.MultiMethod.call, h1, h2]
  · intro funcs m args v f h1 h2
    simp [Multimethods.MultiMethod.call, h1, h2]

/-- Witness for C1 at a concrete input: `foomethod(42)` with an entry for
42 (and a default entry also present) returns "The Answer" in both
variants. -/
theorem c1_witness :
    exFoo.call 42 = Except.ok "The Answer" ∧
    Multimethods.MultiMethod.call exFuncs exFoo2 42 = Except.ok "The Answer" := by
  have h1 := (c1_exact_match_precedence Nat String Nat).1 exFoo 42 (DKey.user 42)
    exAnswerFn rfl rfl
  have h2 := (c1_exact_match_precedence Nat String Nat).2 exFuncs exFoo2 42 (DKey.user 42)
    7 rfl rfl
  exact ⟨h1, h2⟩

/-- C2: whenever the dispatch function yields a value with no entry in the
methods table but an implementation is registered under the `Default`
sentinel, the call returns that default implementation applied to the same
arguments.  Stated for both variants. -/
theorem c2_default_fallback (α β κ : Type) :
    (∀ (m : Multimethodic.MultiMethod α β κ) (args : α) (v : DKey κ)
       (g : α → Except PyError β),
       m.dispatchfn args = Except.ok v → m.methods v = none →
       m.methods DKey.defaultK = some g →
       m.call args = g args) ∧
    (∀ (funcs : Nat → α → Except PyError β) (m : Multimethods.MultiMethod α β κ)
       (args : α) (v : DKey κ) (g : Nat),
       m.dispatchfn args = Except.ok v → m.methods v = none →
       m.methods DKey.defaultK = some g →
       Multimethods.MultiMethod.call funcs m args = funcs g args) := by
  constructor
  · intro m args v g h1 h2 h3
    simp [Multimethodic.MultiMethod.call, h1, h2, h3]
  · intro funcs m args v g h1 h2 h3
    simp [Multimethods.MultiMethod.call, h1, h2, h3]

/-- Witness for C2 at a concrete input: `foomethod(5)` has no entry for 5,
so both variants fall back to the default implementation, "Nothing". -/
theorem c2_witness :
    exFoo.call 5 = Except.ok "Nothing" ∧
    Multimethods.MultiMethod.call exFuncs exFoo2 5 = Except.ok "Nothing" := by
  have h1 := (c2_default_fallback Nat String Nat).1 exFoo 5 (DKey.user 5)
    exNothingFn rfl rfl rfl
  have h2 := (c2_default_fallback Nat String Nat).2 exFuncs exFoo2 5 (DKey.user 5)
    8 rfl rfl rfl
  exact ⟨h1, h2⟩

/-- C3: whenever the dispatch function yields a value with no entry and no
`Default` entry is registered, the call fails with the dispatch-failure
error carrying the multimethod's name: in `multimethodic.py` a
`DispatchError` storing the name in its `name` attribute (and in its
message), and in `multimethods.py` a `ValueError` whose message names the
multimethod (that variant's realisation of the spec's `DispatchError`). -/
theorem c3_dispatch_error (α β κ : Type) :
    (∀ (m : Multimethodic.MultiMethod α β κ) (args : α) (v : DKey κ),
       m.dispatchfn args = Except.ok v → m.methods v = none →
       m.methods DKey.defaultK = none →
       m.call args = Except.error (PyError.dispatchError
         ("No matching method on multimethod '" ++ m.name ++
          "' and no default method defined") m.name)) ∧
    (∀ (funcs : Nat → α → Except PyError β) (m : Multimethods.MultiMethod α β κ)
       (args : α) (v : DKey κ),
       m.dispatchfn args = Except.ok v → m.methods v = none →
       m.methods DKey.defaultK = none →
       Multimethods.MultiMethod.call funcs m args = Except.error (PyError.valueError
         ("No matching method on " ++ m.pyName ++ " and no default method defined"))) := by
  constructor
  · intro m args v h1 h2 h3
    simp [Multimethodic.MultiMethod.call, h1, h2, h3]
  · intro funcs m args v h1 h2 h3
    simp [Multimethods.MultiMethod.call, h1, h2, h3]

/-- Witness for C3 at a concrete input: calling a freshly constructed
multimethod (empty table, no default) fails with the dispatch error
carrying the name in both variants. -/
theorem c3_witness :
    exFooBase.call 1 = Except.error (PyError.dispatchError
      "No matching method on multimethod 'foomethod' and no default method defined"
      "foomethod") ∧
    Multimethods.MultiMethod.call exFuncs exBar2 1 = Except.error (PyError.valueError
      "No matching method on barmethod and no default method defined") := by
  have h1 := (c3_dispatch_error Nat String Nat).1 exFooBase 1 (DKey.user 1) rfl rfl rfl
  have h2 := (c3_dispatch_error Nat String Nat).2 exFuncs exBar2 1 (DKey.user 1) rfl rfl rfl
  exact ⟨h1, h2⟩

/-- C5: `addmethod` is unconditional overwrite.  In both variants:
registering `f1` then `f2` under the same dispatch value leaves the methods
table exactly as registering `f2` alone would (for `multimethodic` the
whole instance state is equal; for `multimethods` the methods table is,
the attribute state being outside the table), no error is possible (the
operation is total), and the entry of every other dispatch value `w ≠ v`
is unchanged — captured by the pointwise description of the table after
one `addmethod`. -/
theorem c5_addmethod_overwrite (α β κ : Type) [DecidableEq κ] :
    (∀ (m : Multimethodic.MultiMethod α β κ) (f1 f2 : α → Except PyError β) (v : DKey κ),
       (m.addmethod f1 v).addmethod f2 v = m.addmethod f2 v) ∧
    (∀ (m : Multimethodic.MultiMethod α β κ) (f : α → Except PyError β) (v w : DKey κ),
       (m.addmethod f v).methods w = if w = v then some f else m.methods w) ∧
    (∀ (m : Multimethods.MultiMethod α β κ) (a a2 : Multimethods.Attrs) (f1 f2 : Nat)
       (v : DKey κ),
       ((m.addmethod a f1 v).1.addmethod a2 f2 v).1.methods = (m.addmethod a f2 v).1.methods) ∧
    (∀ (m : Multimethods.MultiMethod α β κ) (a : Multimethods.Attrs) (f : Nat) (v w : DKey κ),
       (m.addmethod a f v).1.methods w = if w = v then some f else m.methods w) := by
  refine ⟨?_, ?_, ?_, ?_⟩
  · intro m f1 f2 v
    simp [Multimethodic.MultiMethod.addmethod, mapSet_idem]
  · intro m f v w
    simp [Multimethodic.MultiMethod.addmethod, mapSet]
  · intro m a a2 f1 f2 v
    simp [Multimethods.MultiMethod.addmethod, mapSet_idem]
  · intro m a f v w
    simp [Multimethods.MultiMethod.addmethod, mapSet]

/-- C7: the decorator form registers exactly like `addmethod` and has no
other dispatch-relevant effect.  For `multimethodic.MultiMethod.method`:
the new state of the multimethod is precisely `addmethod`'s result and the
value returned to the decorating site is the MultiMethod itself (the same
mutated instance).  For the free `method` decorator of `multimethods.py`:
when the decorated function's name parses and the multimethod is found in
the registry, the whole environment effect is exactly `addmethod` applied
to that multimethod (written back under its registry key) and the returned
value is the implementation `func`. -/
theorem c7_method_decorator_equiv (α β κ : Type) [inst : DecidableEq κ] :
    (∀ (m : Multimethodic.MultiMethod α β κ) (v : DKey κ) (f : α → Except PyError β),
       (m.method v f).1 = m.addmethod f v ∧ (m.method v f).2 = m.addmethod f v) ∧
    (∀ (env : Multimethods.Env α β κ) (v : DKey κ) (func : Multimethods.FuncObj)
       (i : Nat) (m : Multimethods.MultiMethod α β κ),
       Multimethods.lastOccur Multimethods.sepUU func.pyName.data = some i →
       env.instances (String.mk (func.pyName.data.take i)) = some m →
       Multimethods.method v func env = Except.ok (Prod.mk
         (Multimethods.Env.mk
           (mapSet env.instances (String.mk (func.pyName.data.take i))
             (some (m.addmethod env.attrs func.fid v).1))
           (m.addmethod env.attrs func.fid v).2)
         func)) := by
  constructor
  · intro m v f
    constructor
    · rfl
    · rfl
  · intro env v func i m h1 h2
    simp [Multimethods.method, h1, h2]

/-- Witness for C7 at concrete inputs: in `multimethodic`, decorating
`exNothingFn` under `Default` returns the multimethod in the same state
`addmethod` produces; in `multimethods`, decorating `sign__pos` under
dispatch value 1 succeeds against a registry holding `sign`. -/
theorem c7_witness :
    (exFoo.method DKey.defaultK exNothingFn).2 = exFoo.addmethod exNothingFn DKey.defaultK ∧
    (Multimethods.method (DKey.user 1) exSignPos exEnvSign).isOk = true := by
  have h1 := (c7_method_decorator_equiv Nat String Nat).1 exFoo DKey.defaultK exNothingFn
  have h2 := (c7_method_decorator_equiv Nat String Nat).2 exEnvSign (DKey.user 1)
    exSignPos 4 exSign rfl rfl
  refine ⟨h1.2, ?_⟩
  rw [h2]
  rfl

/-- C8: the free decorator `method` of `multimethods.py` resolves the
target multimethod by looking up the identity derived from the decorated
function's `__name__` in `MultiMethod.instances`.  When no multimethod is
registered under that identity it fails with `KeyError` (the spec's
`NotFoundError`); when the lookup succeeds it registers the implementation
on the found multimethod via `addmethod` (table entry and back-reference)
and writes the updated instance back under its registry key. -/
theorem c8_late_registration_lookup (α β κ : Type) [inst : DecidableEq κ] :
    (∀ (env : Multimethods.Env α β κ) (v : DKey κ) (func : Multimethods.FuncObj) (i : Nat),
       Multimethods.lastOccur Multimethods.sepUU func.pyName.data = some i →
       env.instances (String.mk (func.pyName.data.take i)) = none →
       Multimethods.method v func env = Except.error (PyError.keyError
         "Multimethod '%s' not found; it must exist before methods can be added")) ∧
    (∀ (env : Multimethods.Env α β κ) (v : DKey κ) (func : Multimethods.FuncObj) (i : Nat)
       (m : Multimethods.MultiMethod α β κ),
       Multimethods.lastOccur Multimethods.sepUU func.pyName.data = some i →
       env.instances (String.mk (func.pyName.data.take i)) = some m →
       Multimethods.method v func env = Except.ok (Prod.mk
         (Multimethods.Env.mk
           (mapSet env.instances (String.mk (func.pyName.data.take i))
             (some (m.addmethod env.attrs func.fid v).1))
           (m.addmethod env.attrs func.fid v).2)
         func) ∧
       mapSet env.instances (String.mk (func.pyName.data.take i))
           (some (m.addmethod env.attrs func.fid v).1)
           (String.mk (func.pyName.data.take i)) =
         some (m.addmethod env.attrs func.fid v).1) := by
  constructor
  · intro env v func i h1 h2
    simp [Multimethods.method, h1, h2]
  · intro env v func i m h1 h2
    constructor
    · simp [Multimethods.method, h1, h2]
    · exact mapSet_same env.instances (String.mk (func.pyName.data.take i))
        (some (m.addmethod env.attrs func.fid v).1)

/-- Witness for C8 at concrete inputs: decorating `nosuch__impl` against a
registry holding only `sign` fails with the `KeyError`; decorating
`sign__zero` succeeds. -/
theorem c8_witness :
    Multimethods.method (DKey.user 0) exOrphan exEnvSign = Except.error (PyError.keyError
      "Multimethod '%s' not found; it must exist before methods can be added") ∧
    (Multimethods.method (DKey.user 0) exSignZero exEnvSign).isOk = true := by
  have h1 := (c8_late_registration_lookup Nat String Nat).1 exEnvSign (DKey.user 0)
    exOrphan 6 rfl rfl
  have h2 := (c8_late_registration_lookup Nat String Nat).2 exEnvSign (DKey.user 0)
    exSignZero 4 exSign rfl rfl
  refine ⟨h1, ?_⟩
  rw [h2.1]
  rfl

/-- C9: in the registry-bearing variant, `addmethod` mutates the supplied
callable itself, setting its `multimethod` attribute to point at the
owning MultiMethod (identified by its registry name), and `removemethod`
deletes that attribute from the stored callable before removing the table
entry: on success the attribute is gone, and when the attribute is already
absent the deletion fails with `AttributeError` before the table entry is
touched. -/
theorem c9_backref_attribute (α β κ : Type) [inst : DecidableEq κ] :
    (∀ (m : Multimethods.MultiMethod α β κ) (a : Multimethods.Attrs) (f : Nat) (v : DKey κ),
       (m.addmethod a f v).2 f = some m.pyName) ∧
    (∀ (m : Multimethods.MultiMethod α β κ) (a : Multimethods.Attrs) (v : DKey κ)
       (f : Nat) (s : String),
       m.methods v = some f → a f = some s →
       m.removemethod a v = Except.ok (Prod.mk
         (Multimethods.MultiMethod.mk m.pyName m.dispatchfn (mapSet m.methods v none))
         (mapSet a f none)) ∧
       mapSet a f none f = none) ∧
    (∀ (m : Multimethods.MultiMethod α β κ) (a : Multimethods.Attrs) (v : DKey κ) (f : Nat),
       m.methods v = some f → a f = none →
       m.removemethod a v = Except.error (PyError.attributeError "multimethod")) := by
  refine ⟨?_, ?_, ?_⟩
  · intro m a f v
    exact mapSet_same a f (some m.pyName)
  · intro m a v f s h1 h2
    constructor
    · simp [Multimethods.MultiMethod.removemethod, h1, h2]
    · exact mapSet_same a f none
  · intro m a v f h1 h2
    simp [Multimethods.MultiMethod.removemethod, h1, h2]

/-- Witness for C9 at concrete inputs: registering function object 7 on
`barmethod` sets its `multimethod` attribute to "barmethod"; the
successful removal of dispatch value 1 clears the attribute; and removing
when the attribute is absent fails with `AttributeError`. -/
theorem c9_witness :
    exBarAdd.2 7 = some "barmethod" ∧
    mapSet exBarAdd.2 7 none 7 = none ∧
    exBarAdd.1.removemethod exAttrs0 (DKey.user 1) =
      Except.error (PyError.attributeError "multimethod") := by
  have h1 := (c9_backref_attribute Nat String Nat).1 exBar2 exAttrs0 7 (DKey.user 1)
  have h2 := (c9_backref_attribute Nat String Nat).2.1 exBarAdd.1 exBarAdd.2 (DKey.user 1)
    7 "barmethod" rfl rfl
  have h3 := (c9_backref_attribute Nat String Nat).2.2 exBarAdd.1 exAttrs0 (DKey.user 1)
    7 rfl rfl
  exact ⟨h1, h2.2, h3⟩

/-- C10: reachable through the public API alone, there is a state of the
registry-bearing variant in which `removemethod` fails on a dispatch value
that is present in the methods table.  Function object 7 is registered
under both 1 and 2 on `barmethod`; removing 1 succeeds and deletes the
shared `multimethod` attribute; removing 2 then raises `AttributeError`
before the table deletion executes, and — the failure propagating before
any mutation — the entry for 2 is still in the table afterwards. -/
theorem c10_shared_callable_removal_fails :
    exShared2.1.removemethod exShared2.2 (DKey.user 1) =
      Except.ok (Prod.mk exShared3m exShared3a) ∧
    exShared3m.methods (DKey.user 2) = some 7 ∧
    exShared3m.removemethod exShared3a (DKey.user 2) =
      Except.error (PyError.attributeError "multimethod") := by
  refine ⟨rfl, rfl, rfl⟩

/-- Counterexample for C4 at concrete input: in `multimethodic.py` — one of
the claim's two cited sources — there is no registry and no uniqueness
check, so constructing a second MultiMethod named "foobar" does not fail
with any error: `mmInit` returns `Except.ok` unconditionally (each of the
two identical constructions yields the same fresh instance), and two
same-named instances dispatch independently, exactly as the repository's
`test_name_conflict` demands. -/
theorem c4_counterexample :
    Multimethodic.mmInit "foobar" exDispatchId = Except.ok exFoobarBase ∧
    (exFoobarBase.addmethod exFoobar1Fn (DKey.user 1)).call 1 = Except.ok "foobar1" ∧
    (exFoobarBase.addmethod exFoobar2Fn (DKey.user 2)).call 2 = Except.ok "foobar2" := by
  refine ⟨rfl, rfl, rfl⟩

/-- C4 as amended: only the registry-bearing variant (`multimethods.py`)
enforces name uniqueness — constructing a second MultiMethod under a name
already present in `MultiMethod.instances` raises the duplicate-name error
(a plain `Exception` naming the multimethod) and, the exception being
raised before any mutation, the registry and the original instance are
untouched; in `multimethodic.py` there is no registry and construction
always succeeds, same-named instances coexisting independently. -/
theorem c4_duplicate_name_amended (α β κ : Type) :
    (∀ (env : Multimethods.Env α β κ) (n : String) (fn : α → Except PyError (DKey κ))
       (m0 : Multimethods.MultiMethod α β κ),
       env.instances n = some m0 →
       env.mmInit n fn = Except.error (PyError.exceptionE
         ("Multimethod named " ++ n ++ " already exists, redeclaring it would wreak havoc"))) ∧
    (∀ (n : String) (fn : α → Except PyError (DKey κ)),
       (Multimethodic.mmInit n fn : Except PyError (Multimethodic.MultiMethod α β κ)) =
         Except.ok (Multimethodic.MultiMethod.mk n fn (fun _ => none))) := by
  constructor
  · intro env n fn m0 h
    simp [Multimethods.Env.mmInit, h]
  · intro n fn
    rfl

/-- Witness for C4 (amended) at a concrete input: re-declaring "sign"
against a registry already holding it fails with the duplicate-name
exception. -/
theorem c4_witness :
    exEnvSign.mmInit "sign" exDispatchId = Except.error (PyError.exceptionE
      "Multimethod named sign already exists, redeclaring it would wreak havoc") := by
  have h := (c4_duplicate_name_amended Nat String Nat).1 exEnvSign "sign"
    exDispatchId exSign rfl
  exact h

/-- Counterexample for C6 at concrete input: in `multimethods.py` — one of
the claim's two cited sources — function object 9 is registered on
`quxmethod` under both dispatch values 3 and 4; removing 3 succeeds (and
deletes the shared `multimethod` attribute), after which the entry for 4
is present in the methods table, yet `removemethod` on 4 does not delete
it: it fails, and with `AttributeError` rather than the `KeyError`
(`NotFoundError`) reserved for absent values. -/
theorem c6_counterexample :
    exQux2.1.removemethod exQux2.2 (DKey.user 3) =
      Except.ok (Prod.mk exQux3m exQux3a) ∧
    exQux3m.methods (DKey.user 4) = some 9 ∧
    exQux3m.removemethod exQux3a (DKey.user 4) =
      Except.error (PyError.attributeError "multimethod") := by
  refine ⟨rfl, rfl, rfl⟩

/-- C6 as amended: `removemethod` fails with `KeyError` (the spec's
`NotFoundError`) exactly on absent dispatch values in both variants.  In
`multimethodic.py` a present entry is always deleted, exactly that entry,
and a subsequent call whose dispatch function yields the removed value
falls through to the `Default` entry if present and otherwise fails with
`DispatchError`.  In `multimethods.py` the deletion of a present entry
additionally requires the stored callable to still carry its
`multimethod` back-reference attribute; when it does, the entry (and the
attribute) are removed, and when it does not — possible only through
shared registration, see the counterexample — `removemethod` fails with
`AttributeError` and the entry remains. -/
theorem c6_removemethod_amended (α β κ : Type) [inst : DecidableEq κ] :
    (∀ (m : Multimethodic.MultiMethod α β κ) (v : DKey κ),
       m.methods v = none →
       m.removemethod v = Except.error (PyError.keyError "dispatchval")) ∧
    (∀ (m : Multimethodic.MultiMethod α β κ) (v : DKey κ) (f : α → Except PyError β),
       m.methods v = some f →
       m.removemethod v = Except.ok (Multimethodic.MultiMethod.mk m.name m.dispatchfn
         (mapSet m.methods v none)) ∧
       mapSet m.methods v none v = none ∧
       (∀ w, w ≠ v → mapSet m.methods v none w = m.methods w)) ∧
    (∀ (m m2 : Multimethodic.MultiMethod α β κ) (v : DKey κ) (args : α),
       m.removemethod v = Except.ok m2 → v ≠ DKey.defaultK →
       m.dispatchfn args = Except.ok v →
       (∀ g, m.methods DKey.defaultK = some g → m2.call args = g args) ∧
       (m.methods DKey.defaultK = none →
         m2.call args = Except.error (PyError.dispatchError
           ("No matching method on multimethod '" ++ m.name ++
            "' and no default method defined") m.name))) ∧
    (∀ (m : Multimethods.MultiMethod α β κ) (a : Multimethods.Attrs) (v : DKey κ),
       m.methods v = none →
       m.removemethod a v = Except.error (PyError.keyError "dispatchval")) ∧
    (∀ (m : Multimethods.MultiMethod α β κ) (a : Multimethods.Attrs) (v : DKey κ)
       (f : Nat) (s : String),
       m.methods v = some f → a f = some s →
       m.removemethod a v = Except.ok (Prod.mk
         (Multimethods.MultiMethod.mk m.pyName m.dispatchfn (mapSet m.methods v none))
         (mapSet a f none))) ∧
    (∀ (m : Multimethods.MultiMethod α β κ) (a : Multimethods.Attrs) (v : DKey κ) (f : Nat),
       m.methods v = some f → a f = none →
       m.removemethod a v = Except.error (PyError.attributeError "multimethod")) := by
  refine ⟨?_, ?_, ?_, ?_, ?_, ?_⟩
  · intro m v h
    simp [Multimethodic.MultiMethod.removemethod, h]
  · intro m v f h
    refine ⟨by simp [Multimethodic.MultiMethod.removemethod, h], mapSet_same m.methods v none, ?_⟩
    intro w hw
    exact mapSet_other m.methods v w none hw
  · intro m m2 v args hrm hv hd
    cases hm : m.methods v with
    | none => simp [Multimethodic.MultiMethod.removemethod, hm] at hrm
    | some f =>
      simp [Multimethodic.MultiMethod.removemethod, hm] at hrm
      have hdk : (DKey.defaultK : DKey κ) ≠ v := fun hh => hv hh.symm
      constructor
      · intro g hg
        have hdef : mapSet m.methods v none DKey.defaultK = some g := by
          rw [mapSet_other m.methods v DKey.defaultK none hdk]
          exact hg
        simp [← hrm, Multimethodic.MultiMethod.call, hd, mapSet_same, hdef]
      · intro hg
        have hdef : mapSet m.methods v none DKey.defaultK = none := by
          rw [mapSet_other m.methods v DKey.defaultK none hdk]
          exact hg
        simp [← hrm, Multimethodic.MultiMethod.call, hd, mapSet_same, hdef]
  · intro m a v h
    simp [Multimethods.MultiMethod.removemethod, h]
  · intro m a v f s h1 h2
    simp [Multimethods.MultiMethod.removemethod, h1, h2]
  · intro m a v f h1 h2
    simp [Multimethods.MultiMethod.removemethod, h1, h2]

/-- Witness for C6 (amended) at concrete inputs, following
`test_removemethod`: on `barmethod` with only the entry `1 → exBarFn`,
removing 1 succeeds, removing the absent 2 fails with `KeyError`, and
after the successful removal a call dispatching to 1 fails with the
`DispatchError` naming the multimethod (no default is registered). -/
theorem c6_witness :
    exBarM.removemethod (DKey.user 1) = Except.ok (Multimethodic.MultiMethod.mk
      exBarM.name exBarM.dispatchfn (mapSet exBarM.methods (DKey.user 1) none)) ∧
    exBarM.removemethod (DKey.user 2) = Except.error (PyError.keyError "dispatchval") ∧
    (Multimethodic.MultiMethod.mk exBarM.name exBarM.dispatchfn
        (mapSet exBarM.methods (DKey.user 1) none)).call 1 =
      Except.error (PyError.dispatchError
        "No matching method on multimethod 'barmethod' and no default method defined"
        "barmethod") := by
  have h1 := (c6_removemethod_amended Nat String Nat).2.1 exBarM (DKey.user 1) exBarFn rfl
  have h2 := (c6_removemethod_amended Nat String Nat).1 exBarM (DKey.user 2) rfl
  have h3 := (c6_removemethod_amended Nat String Nat).2.2.1 exBarM
    (Multimethodic.MultiMethod.mk exBarM.name exBarM.dispatchfn
      (mapSet exBarM.methods (DKey.user 1) none))
    (DKey.user 1) 1 h1.1 (by intro hh; cases hh) rfl
  exact ⟨h1.1, h2, h3.2 rfl⟩
